import Mathlib

/-!
# Device service controller (core-metadata, v2 API)

A shallow embedding of `internal/core/metadata/v2/controller/http/deviceservice.go`.

Every handler of the controller is a function from the collaborators it calls, the
inbound request and the state of the domain layer to the new domain state and the
ordered trace of effects the handler performed: log lines, domain calls (with the
result each call returned), the status/header write and the body encode.

The collaborators the handlers call (request reader, application layer, query string
helpers, contract constants) are parameters of the embedding, so every theorem holds
for every behaviour of those collaborators.
-/

namespace Metadata

/-! ## Errors -/

/-- Modelled from the spec: the error kinds of the taxonomy in section 7 of the
specification. The package that declares the kinds
(`go-mod-core-contracts/errors`) is imported by the controller, which
only names `KindEntityDoesNotExist`. -/
inductive ErrKind
  | ParsingError
  | InvalidQueryParam
  | EntityDoesNotExist
  | ValidationFailure
  | Conflict
  | InternalFailure
  deriving DecidableEq

/-- Modelled from the spec: the table from error kind to HTTP status of the imported
errors package, as section 4.4 gives it: `EntityDoesNotExist` is 404, the other kinds
map to 400 (malformed body, bad query parameter, validation failure), 409 (conflict)
and 500 (internal failure). -/
def codeMapping : ErrKind → Nat
  | .ParsingError => 400
  | .InvalidQueryParam => 400
  | .EntityDoesNotExist => 404
  | .ValidationFailure => 400
  | .Conflict => 409
  | .InternalFailure => 500

/-- The value behind the `errors.EdgeX` interface: what the accessors `errors.Kind`,
`Message()`, `Error()` and `DebugMessages()` return for it. -/
structure EdgeX where
  kind : ErrKind
  Message : String
  Error : String
  DebugMessages : String
  deriving DecidableEq

/-- The accessor `Code()`: the HTTP status mapped from the kind of the error. -/
def EdgeX.Code (err : EdgeX) : Nat := codeMapping err.kind

/-! ## Transfer objects and domain model -/

/-- The domain model `models.DeviceService`; the handlers read only `Name`, the other
fields are carried opaquely. -/
structure DeviceService where
  Name : String
  Descriptor : String
  deriving DecidableEq

/-- The transfer object `dtos.DeviceService` inside an add request. -/
structure DeviceServiceDTO where
  Name : String
  Descriptor : String
  deriving DecidableEq

/-- The request item `requests.AddDeviceServiceRequest`. -/
structure AddDeviceServiceRequest where
  RequestId : String
  Service : DeviceServiceDTO
  deriving DecidableEq

/-- The transfer object `dtos.UpdateDeviceService`: the name that selects the record
and the fields present in the patch. -/
structure UpdateDeviceService where
  Name : String
  PatchFields : List (String × String)
  deriving DecidableEq

/-- The request item `requests.UpdateDeviceServiceRequest`. -/
structure UpdateDeviceServiceRequest where
  RequestId : String
  Service : UpdateDeviceService
  deriving DecidableEq

/-! ## Response envelopes -/

/-- The optional payload of a response envelope. -/
inductive Payload
  | none
  | id (newId : String)
  | service (deviceService : DeviceService)
  | services (deviceServices : List DeviceService)
  deriving DecidableEq

/-- The response envelope: the base response fields plus the optional payload. -/
structure Envelope where
  requestId : String
  message : String
  statusCode : Nat
  payload : Payload
  deriving DecidableEq

/-- The constructor `commonDTO.NewBaseResponse(requestId, message, statusCode)`. -/
def NewBaseResponse (requestId message : String) (statusCode : Nat) : Envelope :=
  { requestId := requestId, message := message, statusCode := statusCode, payload := .none }

/-- The constructor `commonDTO.NewBaseWithIdResponse(requestId, message, statusCode, id)`. -/
def NewBaseWithIdResponse (requestId message : String) (statusCode : Nat) (id : String) :
    Envelope :=
  { requestId := requestId, message := message, statusCode := statusCode, payload := .id id }

/-- The constructor `responseDTO.NewDeviceServiceResponseNoMessage(requestId, statusCode, ds)`. -/
def NewDeviceServiceResponseNoMessage (requestId : String) (statusCode : Nat)
    (deviceService : DeviceService) : Envelope :=
  { requestId := requestId, message := "", statusCode := statusCode,
    payload := .service deviceService }

/-- The constructor
`responseDTO.NewMultiDeviceServicesResponse(requestId, message, statusCode, dss)`. -/
def NewMultiDeviceServicesResponse (requestId message : String) (statusCode : Nat)
    (deviceServices : List DeviceService) : Envelope :=
  { requestId := requestId, message := message, statusCode := statusCode,
    payload := .services deviceServices }

/-- The value handed to `pkg.Encode`: the nil interface value, one envelope, or the
slice of per-item envelopes. -/
inductive ResponseBody
  | nil
  | single (response : Envelope)
  | multi (responses : List Envelope)
  deriving DecidableEq

/-! ## Requests, effects and collaborators -/

/-- The inbound `*http.Request` as far as the handlers look at it: the body (absent
when `r.Body` is nil), the path variables of the router, the query string and the
correlation id stored in the request context. -/
structure Request where
  Body : Option String
  Vars : List (String × String)
  Query : List (String × String)
  CorrelationId : String

/-- The lookup `mux.Vars(r)[key]`: the value of a path variable, the empty string
when the key is absent. -/
def Request.Var (r : Request) (key : String) : String :=
  (r.Vars.lookup key).getD ""

/-- One call into the application layer together with the result the call returned. -/
inductive DomainCall
  | AddDeviceService (d : DeviceService) (res : Except EdgeX String)
  | GetDeviceServiceByName (name : String) (res : Except EdgeX DeviceService)
  | PatchDeviceService (dto : UpdateDeviceService) (res : Option EdgeX)
  | DeleteDeviceServiceById (id : String) (res : Option EdgeX)
  | DeleteDeviceServiceByName (name : String) (res : Option EdgeX)
  | GetDeviceServices (offset limit : Int) (labels : List String)
      (res : Except EdgeX (List DeviceService))

/-- One observable effect of a handler. -/
inductive Effect
  | logError (msg correlationId : String)
  | logDebug (msg correlationId : String)
  | domain (call : DomainCall)
  | writeHeader (statusCode : Nat)
  | encode (body : ResponseBody)
  | closeBody

/-- The collaborators of the controller over a domain state `σ`: the request reader,
the element conversion of `requests.AddDeviceServiceReqToDeviceServiceModels`, the
application layer (each operation returns its result and the new domain state), the
query string helpers of `utils` and the constants of the `v2` contracts package.
`ParseQueryStringToInt` returns the Go pair: the parsed value and the optional error. -/
structure Collaborators (σ : Type) where
  ReadAddDeviceServiceRequest : Option String → Except EdgeX (List AddDeviceServiceRequest)
  ReadUpdateDeviceServiceRequest :
    Option String → Except EdgeX (List UpdateDeviceServiceRequest)
  ToDeviceServiceModel : DeviceServiceDTO → DeviceService
  AddDeviceService : DeviceService → σ → Except EdgeX String × σ
  GetDeviceServiceByName : String → σ → Except EdgeX DeviceService × σ
  PatchDeviceService : UpdateDeviceService → σ → Option EdgeX × σ
  DeleteDeviceServiceById : String → σ → Option EdgeX × σ
  DeleteDeviceServiceByName : String → σ → Option EdgeX × σ
  GetDeviceServices : Int → Int → List String → σ → Except EdgeX (List DeviceService) × σ
  ParseQueryStringToInt : Request → String → Int → Int × Option EdgeX
  ParseQueryStringToStrings : Request → String → String → List String
  Name : String
  Id : String
  Offset : String
  Limit : String
  Labels : String
  CommaSeparator : String
  DefaultOffset : Int
  DefaultLimit : Int

/-- The HTTP status constants the handlers use. -/
def StatusOK : Nat := 200

/-- The constant `http.StatusCreated`. -/
def StatusCreated : Nat := 201

/-- The constant `http.StatusMultiStatus`. -/
def StatusMultiStatus : Nat := 207

/-! ## The handlers -/

section Handlers

variable {σ : Type}

/-- The conversion `requestDTO.AddDeviceServiceReqToDeviceServiceModels`: element `i`
of the result is the model of the service of request `i`. -/
def AddDeviceServiceReqToDeviceServiceModels (c : Collaborators σ)
    (addRequests : List AddDeviceServiceRequest) : List DeviceService :=
  addRequests.map (fun req => c.ToDeviceServiceModel req.Service)

/-- The deferred `r.Body.Close()`, registered only when the body is not nil. -/
def deferredClose (r : Request) : List Effect :=
  if r.Body.isSome then [Effect.closeBody] else []

/-- The two branches after the domain create call in the loop of `AddDeviceService`:
the log lines written and the envelope built for one item. -/
def addDeviceServiceResponse (correlationId reqId : String) (d : DeviceService) :
    Except EdgeX String → List Effect × Envelope
  | .ok newId =>
    ([], NewBaseWithIdResponse reqId
          ("Add device service " ++ d.Name ++ " successfully") StatusCreated newId)
  | .error err =>
    ([Effect.logError err.Error correlationId,
      Effect.logDebug err.DebugMessages correlationId],
     NewBaseResponse reqId err.Error err.Code)

/-- The loop of `AddDeviceService` from index `i` on: for each model `d` the domain
create is called, the request id is read from `addDeviceServiceDTOs[i]` (an index out
of range is a runtime panic, `none`), and the envelope is appended. Returns the new
domain state, the effects and the envelopes in append order. -/
def addLoop (c : Collaborators σ) (correlationId : String)
    (addDeviceServiceDTOs : List AddDeviceServiceRequest) :
    Nat → List DeviceService → σ → Option (σ × List Effect × List Envelope)
  | _, [], s => some (s, [], [])
  | i, d :: rest, s =>
    match c.AddDeviceService d s with
    | (res, s1) =>
      match addDeviceServiceDTOs[i]? with
      | none => none
      | some dto =>
        let reqId := dto.RequestId
        let step := addDeviceServiceResponse correlationId reqId d res
        match addLoop c correlationId addDeviceServiceDTOs (i + 1) rest s1 with
        | none => none
        | some (s2, effects, addResponses) =>
          some (s2, Effect.domain (.AddDeviceService d res) :: (step.1 ++ effects),
                step.2 :: addResponses)

/-- The handler `AddDeviceService`. -/
def AddDeviceService (c : Collaborators σ) (r : Request) (s : σ) :
    Option (σ × List Effect) :=
  let correlationId := r.CorrelationId
  match c.ReadAddDeviceServiceRequest r.Body with
  | .error err =>
    some (s, [Effect.logError err.Error correlationId,
              Effect.logDebug err.DebugMessages correlationId,
              Effect.writeHeader err.Code,
              Effect.encode (.single (NewBaseResponse "" err.Message err.Code))]
             ++ deferredClose r)
  | .ok addDeviceServiceDTOs =>
    let deviceServices := AddDeviceServiceReqToDeviceServiceModels c addDeviceServiceDTOs
    match addLoop c correlationId addDeviceServiceDTOs 0 deviceServices s with
    | none => none
    | some (s1, effects, addResponses) =>
      some (s1, effects ++ [Effect.writeHeader StatusMultiStatus,
                            Effect.encode (.multi addResponses)] ++ deferredClose r)

/-- The handler `GetDeviceServiceByName`. -/
def GetDeviceServiceByName (c : Collaborators σ) (r : Request) (s : σ) : σ × List Effect :=
  let correlationId := r.CorrelationId
  let name := r.Var c.Name
  match c.GetDeviceServiceByName name s with
  | (.error err, s1) =>
    (s1, [Effect.domain (.GetDeviceServiceByName name (.error err))]
         ++ (if err.kind ≠ ErrKind.EntityDoesNotExist
             then [Effect.logError err.Error correlationId] else [])
         ++ [Effect.logDebug err.DebugMessages correlationId,
             Effect.writeHeader err.Code,
             Effect.encode (.single (NewBaseResponse "" err.Message err.Code))])
  | (.ok deviceService, s1) =>
    (s1, [Effect.domain (.GetDeviceServiceByName name (.ok deviceService)),
          Effect.writeHeader StatusOK,
          Effect.encode (.single (NewDeviceServiceResponseNoMessage "" StatusOK deviceService))])

/-- The two branches after the domain patch call in the loop of `PatchDeviceService`:
the log lines written and the envelope built for one item. -/
def patchDeviceServiceResponse (correlationId reqId : String) :
    Option EdgeX → List Effect × Envelope
  | some err =>
    ([Effect.logError err.Error correlationId,
      Effect.logDebug err.DebugMessages correlationId],
     NewBaseResponse reqId err.Message err.Code)
  | none => ([], NewBaseResponse reqId "" StatusOK)

/-- The loop of `PatchDeviceService` over the request items. -/
def patchLoop (c : Collaborators σ) (correlationId : String) :
    List UpdateDeviceServiceRequest → σ → σ × List Effect × List Envelope
  | [], s => (s, [], [])
  | dto :: rest, s =>
    let reqId := dto.RequestId
    match c.PatchDeviceService dto.Service s with
    | (res, s1) =>
      let step := patchDeviceServiceResponse correlationId reqId res
      match patchLoop c correlationId rest s1 with
      | (s2, effects, updateResponses) =>
        (s2, Effect.domain (.PatchDeviceService dto.Service res) :: (step.1 ++ effects),
         step.2 :: updateResponses)

/-- The handler `PatchDeviceService`. -/
def PatchDeviceService (c : Collaborators σ) (r : Request) (s : σ) : σ × List Effect :=
  let correlationId := r.CorrelationId
  match c.ReadUpdateDeviceServiceRequest r.Body with
  | .error err =>
    (s, [Effect.logError err.Error correlationId,
         Effect.logDebug err.DebugMessages correlationId,
         Effect.writeHeader err.Code,
         Effect.encode (.single (NewBaseResponse "" err.Message err.Code))]
        ++ deferredClose r)
  | .ok updateDeviceServiceDTOs =>
    match patchLoop c correlationId updateDeviceServiceDTOs s with
    | (s1, effects, updateResponses) =>
      (s1, effects ++ [Effect.writeHeader StatusMultiStatus,
                       Effect.encode (.multi updateResponses)] ++ deferredClose r)

/-- The handler `DeleteDeviceServiceById`. -/
def DeleteDeviceServiceById (c : Collaborators σ) (r : Request) (s : σ) : σ × List Effect :=
  let correlationId := r.CorrelationId
  let id := r.Var c.Id
  match c.DeleteDeviceServiceById id s with
  | (some err, s1) =>
    (s1, [Effect.domain (.DeleteDeviceServiceById id (some err))]
         ++ (if err.kind ≠ ErrKind.EntityDoesNotExist
             then [Effect.logError err.Error correlationId] else [])
         ++ [Effect.logDebug err.DebugMessages correlationId,
             Effect.writeHeader err.Code,
             Effect.encode (.single (NewBaseResponse "" err.Message err.Code))])
  | (none, s1) =>
    (s1, [Effect.domain (.DeleteDeviceServiceById id none),
          Effect.writeHeader StatusOK,
          Effect.encode
            (.single (NewBaseResponse "" "Delete device service successfully" StatusOK))])

/-- The handler `DeleteDeviceServiceByName`. -/
def DeleteDeviceServiceByName (c : Collaborators σ) (r : Request) (s : σ) :
    σ × List Effect :=
  let correlationId := r.CorrelationId
  let name := r.Var c.Name
  match c.DeleteDeviceServiceByName name s with
  | (some err, s1) =>
    (s1, [Effect.domain (.DeleteDeviceServiceByName name (some err))]
         ++ (if err.kind ≠ ErrKind.EntityDoesNotExist
             then [Effect.logError err.Error correlationId] else [])
         ++ [Effect.logDebug err.DebugMessages correlationId,
             Effect.writeHeader err.Code,
             Effect.encode (.single (NewBaseResponse "" err.Message err.Code))])
  | (none, s1) =>
    (s1, [Effect.domain (.DeleteDeviceServiceByName name none),
          Effect.writeHeader StatusOK,
          Effect.encode
            (.single (NewBaseResponse "" "Delete device service successfully" StatusOK))])

/-- The log lines of the branch taken when a query parameter fails to parse. -/
def parseFailureLogs (correlationId : String) : Option EdgeX → List Effect
  | some err => [Effect.logError err.Error correlationId,
                 Effect.logDebug err.DebugMessages correlationId]
  | none => []

/-- The variables `response` and `statusCode` after one parse attempt: assigned from
the error when the attempt failed, left as they were otherwise. -/
def afterParse (current : ResponseBody × Nat) : Option EdgeX → ResponseBody × Nat
  | some err => (.single (NewBaseResponse "" err.Message err.Code), err.Code)
  | none => current

/-- The log lines of the branch taken when the domain list operation fails. -/
def listFailureLogs (correlationId : String) :
    Except EdgeX (List DeviceService) → List Effect
  | .error err =>
    (if err.kind ≠ ErrKind.EntityDoesNotExist
     then [Effect.logError err.Error correlationId] else [])
    ++ [Effect.logDebug err.DebugMessages correlationId]
  | .ok _ => []

/-- The variables `response` and `statusCode` after the domain list call: both
branches of the `if err != nil` assign them, whatever they held before. -/
def afterList (_current : ResponseBody × Nat) :
    Except EdgeX (List DeviceService) → ResponseBody × Nat
  | .error err => (.single (NewBaseResponse "" err.Message err.Code), err.Code)
  | .ok deviceServices =>
    (.single (NewMultiDeviceServicesResponse "" "" StatusOK deviceServices), StatusOK)

/-- The handler `GetAllDeviceServices`. The variables `response` (nil at first) and
`statusCode` (zero at first) are threaded through the two parse attempts and the
domain call; the header and the body are written from their final values. -/
def GetAllDeviceServices (c : Collaborators σ) (r : Request) (s : σ) : σ × List Effect :=
  let correlationId := r.CorrelationId
  let vars0 : ResponseBody × Nat := (.nil, 0)
  match c.ParseQueryStringToInt r c.Offset c.DefaultOffset with
  | (offset, err1) =>
    let vars1 := afterParse vars0 err1
    match c.ParseQueryStringToInt r c.Limit c.DefaultLimit with
    | (limit, err2) =>
      let vars2 := afterParse vars1 err2
      let labels := c.ParseQueryStringToStrings r c.Labels c.CommaSeparator
      match c.GetDeviceServices offset limit labels s with
      | (res, s1) =>
        let vars3 := afterList vars2 res
        (s1, parseFailureLogs correlationId err1 ++ parseFailureLogs correlationId err2
             ++ [Effect.domain (.GetDeviceServices offset limit labels res)]
             ++ listFailureLogs correlationId res
             ++ [Effect.writeHeader vars3.2, Effect.encode vars3.1])

end Handlers

/-! ## Observations on a trace -/

/-- The writes to the response writer in a trace, in order. -/
def transport : List Effect → List Effect
  | [] => []
  | Effect.writeHeader st :: rest => Effect.writeHeader st :: transport rest
  | Effect.encode b :: rest => Effect.encode b :: transport rest
  | _ :: rest => transport rest

/-- The calls into the application layer in a trace, in order. -/
def domainCalls : List Effect → List DomainCall
  | [] => []
  | Effect.domain call :: rest => call :: domainCalls rest
  | _ :: rest => domainCalls rest

/-- The error-severity log lines in a trace, in order. -/
def errorLogs : List Effect → List Effect
  | [] => []
  | Effect.logError msg cid :: rest => Effect.logError msg cid :: errorLogs rest
  | _ :: rest => errorLogs rest

/-- The debug-severity log lines in a trace, in order. -/
def debugLogs : List Effect → List Effect
  | [] => []
  | Effect.logDebug msg cid :: rest => Effect.logDebug msg cid :: debugLogs rest
  | _ :: rest => debugLogs rest

/-- The log lines of both severities in a trace, in order. -/
def logLines : List Effect → List Effect
  | [] => []
  | Effect.logError msg cid :: rest => Effect.logError msg cid :: logLines rest
  | Effect.logDebug msg cid :: rest => Effect.logDebug msg cid :: logLines rest
  | _ :: rest => logLines rest

/-- The error a domain call returned, if it returned one. -/
def failureOf : DomainCall → Option EdgeX
  | .AddDeviceService _ (.error err) => some err
  | .AddDeviceService _ (.ok _) => none
  | .GetDeviceServiceByName _ (.error err) => some err
  | .GetDeviceServiceByName _ (.ok _) => none
  | .PatchDeviceService _ res => res
  | .DeleteDeviceServiceById _ res => res
  | .DeleteDeviceServiceByName _ res => res
  | .GetDeviceServices _ _ _ (.error err) => some err
  | .GetDeviceServices _ _ _ (.ok _) => none

/-- The errors returned by the domain calls of a trace, in call order. -/
def domainFailures (tr : List Effect) : List EdgeX :=
  (domainCalls tr).filterMap failureOf

/-- The log lines of a domain failure on a batch endpoint: one error-severity line and
one debug-severity line, whatever the kind. -/
def unguardedLogs (correlationId : String) (err : EdgeX) : List Effect :=
  [Effect.logError err.Error correlationId, Effect.logDebug err.DebugMessages correlationId]

/-- The log lines of a domain failure on a single-item endpoint: the error-severity
line is left out for `EntityDoesNotExist`, the debug-severity line is always there. -/
def guardedLogs (correlationId : String) (err : EdgeX) : List Effect :=
  (if err.kind = ErrKind.EntityDoesNotExist then []
   else [Effect.logError err.Error correlationId])
  ++ [Effect.logDebug err.DebugMessages correlationId]

/-- The domain create invoked once per model, in list order, each call on the state
the previous call left: the calls with their results, and the final state. -/
def sequentialAdds {σ : Type} (c : Collaborators σ) :
    List DeviceService → σ → List DomainCall × σ
  | [], s => ([], s)
  | d :: rest, s =>
    let out := c.AddDeviceService d s
    let tail := sequentialAdds c rest out.2
    (DomainCall.AddDeviceService d out.1 :: tail.1, tail.2)

/-- The domain patch invoked once per payload, in list order, each call on the state
the previous call left: the calls with their results, and the final state. -/
def sequentialPatches {σ : Type} (c : Collaborators σ) :
    List UpdateDeviceService → σ → List DomainCall × σ
  | [], s => ([], s)
  | u :: rest, s =>
    let out := c.PatchDeviceService u s
    let tail := sequentialPatches c rest out.2
    (DomainCall.PatchDeviceService u out.1 :: tail.1, tail.2)

/-- The add loop written over the request items themselves: item by item, the model
of the item is created and the envelope takes the request id of the item. -/
def addRun {σ : Type} (c : Collaborators σ) (correlationId : String) :
    List AddDeviceServiceRequest → σ → σ × List Effect × List Envelope
  | [], s => (s, [], [])
  | dto :: rest, s =>
    let d := c.ToDeviceServiceModel dto.Service
    let out := c.AddDeviceService d s
    let step := addDeviceServiceResponse correlationId dto.RequestId d out.1
    let tail := addRun c correlationId rest out.2
    (tail.1, Effect.domain (.AddDeviceService d out.1) :: (step.1 ++ tail.2.1),
     step.2 :: tail.2.2)

/-! ## A sample deployment

A concrete set of collaborators over a registry of device service names, used to
evaluate the handlers on concrete requests. -/

/-- The error of the sample reader for a body it cannot decode. -/
def sampleMalformed : EdgeX :=
  { kind := .ParsingError, Message := "malformed request body",
    Error := "parsing: malformed request body", DebugMessages := "reader: decode failed" }

/-- The error of the sample query parser. -/
def sampleBadQuery : EdgeX :=
  { kind := .InvalidQueryParam, Message := "invalid query parameter",
    Error := "query: invalid query parameter", DebugMessages := "utils: parse failed" }

/-- The error of the sample domain layer for a name that is not registered. -/
def sampleNotFound : EdgeX :=
  { kind := .EntityDoesNotExist, Message := "device service does not exist",
    Error := "not found: device service does not exist",
    DebugMessages := "application: lookup returned no record" }

/-- The error of the sample domain layer for a name that is registered already. -/
def sampleDuplicate : EdgeX :=
  { kind := .Conflict, Message := "device service name exists already",
    Error := "conflict: device service name exists already",
    DebugMessages := "application: duplicate name" }

/-- The error of the sample domain layer for a record without a name. -/
def sampleInvalid : EdgeX :=
  { kind := .ValidationFailure, Message := "device service name is empty",
    Error := "validation: device service name is empty",
    DebugMessages := "application: validation failed" }

/-- The add requests the sample reader decodes: a valid record, a record without a
name, and a second record with the name of the first. -/
def sampleAddRequests : List AddDeviceServiceRequest :=
  [ { RequestId := "req-1", Service := { Name := "svc-a", Descriptor := "grpc" } },
    { RequestId := "req-2", Service := { Name := "", Descriptor := "rest" } },
    { RequestId := "req-3", Service := { Name := "svc-a", Descriptor := "mqtt" } } ]

/-- The update requests the sample reader decodes: a patch of a registered service
and a patch of a service nobody registered. -/
def sampleUpdateRequests : List UpdateDeviceServiceRequest :=
  [ { RequestId := "upd-1",
      Service := { Name := "svc-a", PatchFields := [("description", "new")] } },
    { RequestId := "upd-2",
      Service := { Name := "svc-x", PatchFields := [("description", "other")] } } ]

/-- The value of a decimal numeral with an optional leading minus sign, if the text is
one. -/
def sampleDecimal (raw : String) : Option Int :=
  let digits (cs : List Char) : Option Nat :=
    if cs ≠ [] ∧ cs.all Char.isDigit
    then some (cs.foldl (fun n ch => 10 * n + (ch.toNat - 48)) 0) else none
  match raw.toList with
  | '-' :: cs => (digits cs).map (fun n => - (n : Int))
  | cs => (digits cs).map (fun n => (n : Int))

/-- Modelled from the spec: the integer query parser of section 4.2 (the helper
`utils.ParseQueryStringToInt` is not part of the controller file). An absent parameter
gives the default; a value that is not an integer, an offset below 0 or a limit below
-1 is an `InvalidQueryParam` failure. -/
def sampleParseQueryStringToInt (r : Request) (key : String) (defaultValue : Int) :
    Int × Option EdgeX :=
  match r.Query.lookup key with
  | none => (defaultValue, none)
  | some raw =>
    match sampleDecimal raw with
    | none => (0, some sampleBadQuery)
    | some v =>
      if (key = "offset" ∧ v < 0) ∨ (key = "limit" ∧ v < -1)
      then (0, some sampleBadQuery) else (v, none)

/-- The pieces of a character list between occurrences of a separator. -/
def sampleSplit (sep : Char) : List Char → List (List Char)
  | [] => [[]]
  | ch :: rest =>
    match sampleSplit sep rest with
    | [] => [[ch]]
    | piece :: pieces => if ch = sep then [] :: piece :: pieces else (ch :: piece) :: pieces

/-- Modelled from the spec: the list query parser of section 4.2 (the helper
`utils.ParseQueryStringToStrings` is not part of the controller file). An absent
parameter gives the empty sequence, a present one its non-empty tokens in order. -/
def sampleParseQueryStringToStrings (r : Request) (key : String) (separator : String) :
    List String :=
  match r.Query.lookup key with
  | none => []
  | some raw =>
    ((sampleSplit (separator.toList.headD ',') raw.toList).filter
      (fun piece => piece ≠ [])).map String.mk

/-- The record the sample domain layer keeps for a registered name. -/
def sampleRecord (name : String) : DeviceService :=
  { Name := name, Descriptor := "registered" }

/-- The sample collaborators. The domain state is the list of registered names, the
newest first. The reader decodes two fixed bodies and rejects every other body. -/
def sample : Collaborators (List String) where
  ReadAddDeviceServiceRequest := fun body =>
    match body with
    | none => .ok []
    | some text => if text = "add-batch" then .ok sampleAddRequests else .error sampleMalformed
  ReadUpdateDeviceServiceRequest := fun body =>
    match body with
    | none => .ok []
    | some text =>
      if text = "patch-batch" then .ok sampleUpdateRequests else .error sampleMalformed
  ToDeviceServiceModel := fun dto => { Name := dto.Name, Descriptor := dto.Descriptor }
  AddDeviceService := fun d names =>
    if d.Name = "" then (.error sampleInvalid, names)
    else if d.Name ∈ names then (.error sampleDuplicate, names)
    else (.ok ("id-" ++ d.Name), d.Name :: names)
  GetDeviceServiceByName := fun name names =>
    if name ∈ names then (.ok (sampleRecord name), names) else (.error sampleNotFound, names)
  PatchDeviceService := fun dto names =>
    if dto.Name ∈ names then (none, names) else (some sampleNotFound, names)
  DeleteDeviceServiceById := fun id names =>
    if id ∈ names.map (fun name => "id-" ++ name)
    then (none, names.filter (fun name => "id-" ++ name ≠ id))
    else (some sampleNotFound, names)
  DeleteDeviceServiceByName := fun name names =>
    if name ∈ names then (none, names.filter (fun other => other ≠ name))
    else (some sampleNotFound, names)
  GetDeviceServices := fun offset limit _labels names =>
    let records := (names.drop offset.toNat).map sampleRecord
    (.ok (if limit < 0 then records else records.take limit.toNat), names)
  ParseQueryStringToInt := sampleParseQueryStringToInt
  ParseQueryStringToStrings := sampleParseQueryStringToStrings
  Name := "name"
  Id := "id"
  Offset := "offset"
  Limit := "limit"
  Labels := "labels"
  CommaSeparator := ","
  DefaultOffset := 0
  DefaultLimit := 20

/-- A batch create request carrying the three sample add requests. -/
def sampleAddRequest : Request :=
  { Body := some "add-batch", Vars := [], Query := [], CorrelationId := "corr-1" }

/-- A batch update request carrying the two sample update requests. -/
def samplePatchRequest : Request :=
  { Body := some "patch-batch", Vars := [], Query := [], CorrelationId := "corr-2" }

/-- A batch request whose body the sample reader cannot decode. -/
def sampleMalformedRequest : Request :=
  { Body := some "not json", Vars := [], Query := [], CorrelationId := "corr-3" }

/-- A get-by-name request for a name nobody registered. -/
def sampleUnknownNameRequest : Request :=
  { Body := none, Vars := [("name", "unknown-name")], Query := [],
    CorrelationId := "corr-4" }

/-- A list request whose offset is not a number. -/
def sampleBadOffsetRequest : Request :=
  { Body := none, Vars := [], Query := [("offset", "abc")], CorrelationId := "corr-5" }

/-- A list request whose offset and limit are both not numbers. -/
def sampleBadOffsetAndLimitRequest : Request :=
  { Body := none, Vars := [], Query := [("offset", "abc"), ("limit", "xyz")],
    CorrelationId := "corr-6" }

/-- The sample collaborators with a domain create that rejects every record because
the record it refers to does not exist. -/
def sampleNoParent : Collaborators (List String) :=
  { sample with AddDeviceService := fun _ names => (.error sampleNotFound, names) }

/-! ## Basic facts about the observations -/

theorem transport_append (a b : List Effect) :
    transport (a ++ b) = transport a ++ transport b := by
  induction a with
  | nil => rfl
  | cons x xs ih => cases x <;> simp [transport, ih]

theorem domainCalls_append (a b : List Effect) :
    domainCalls (a ++ b) = domainCalls a ++ domainCalls b := by
  induction a with
  | nil => rfl
  | cons x xs ih => cases x <;> simp [domainCalls, ih]

theorem errorLogs_append (a b : List Effect) :
    errorLogs (a ++ b) = errorLogs a ++ errorLogs b := by
  induction a with
  | nil => rfl
  | cons x xs ih => cases x <;> simp [errorLogs, ih]

theorem debugLogs_append (a b : List Effect) :
    debugLogs (a ++ b) = debugLogs a ++ debugLogs b := by
  induction a with
  | nil => rfl
  | cons x xs ih => cases x <;> simp [debugLogs, ih]

theorem logLines_append (a b : List Effect) :
    logLines (a ++ b) = logLines a ++ logLines b := by
  induction a with
  | nil => rfl
  | cons x xs ih => cases x <;> simp [logLines, ih]

theorem transport_deferredClose (r : Request) : transport (deferredClose r) = [] := by
  unfold deferredClose; split <;> rfl

theorem domainCalls_deferredClose (r : Request) : domainCalls (deferredClose r) = [] := by
  unfold deferredClose; split <;> rfl

theorem logLines_deferredClose (r : Request) : logLines (deferredClose r) = [] := by
  unfold deferredClose; split <;> rfl

theorem errorLogs_deferredClose (r : Request) : errorLogs (deferredClose r) = [] := by
  unfold deferredClose; split <;> rfl

theorem debugLogs_deferredClose (r : Request) : debugLogs (deferredClose r) = [] := by
  unfold deferredClose; split <;> rfl

/-! ## The loops -/

section Loops

variable {σ : Type}

theorem addLoop_eq_addRun (c : Collaborators σ) (cid : String)
    (rest : List AddDeviceServiceRequest) :
    ∀ (pre : List AddDeviceServiceRequest) (s : σ),
      addLoop c cid (pre ++ rest) pre.length
        (AddDeviceServiceReqToDeviceServiceModels c rest) s
        = some (addRun c cid rest s) := by
  induction rest with
  | nil => intro pre s; rfl
  | cons x xs ih =>
    intro pre s
    have hidx : (pre ++ x :: xs)[pre.length]? = some x := by
      rw [List.getElem?_append_right (Nat.le_refl _)]; simp
    have hstep := ih (pre ++ [x]) (c.AddDeviceService (c.ToDeviceServiceModel x.Service) s).2
    simp only [List.append_assoc, List.singleton_append, List.length_append,
      List.length_singleton] at hstep
    simp only [AddDeviceServiceReqToDeviceServiceModels, List.map_cons, addLoop, hidx]
    simp only [AddDeviceServiceReqToDeviceServiceModels] at hstep
    rw [hstep]
    rfl

theorem addResponse_transport (cid reqId : String) (d : DeviceService)
    (res : Except EdgeX String) :
    transport (addDeviceServiceResponse cid reqId d res).1 = [] := by
  cases res <;> rfl

theorem addResponse_domainCalls (cid reqId : String) (d : DeviceService)
    (res : Except EdgeX String) :
    domainCalls (addDeviceServiceResponse cid reqId d res).1 = [] := by
  cases res <;> rfl

theorem addResponse_logLines (cid reqId : String) (d : DeviceService)
    (res : Except EdgeX String) :
    logLines (addDeviceServiceResponse cid reqId d res).1
      = ((failureOf (.AddDeviceService d res)).toList).flatMap (unguardedLogs cid) := by
  cases res <;> rfl

theorem addRun_transport (c : Collaborators σ) (cid : String)
    (reqs : List AddDeviceServiceRequest) :
    ∀ s : σ, transport (addRun c cid reqs s).2.1 = [] := by
  induction reqs with
  | nil => intro s; rfl
  | cons x xs ih =>
    intro s
    simp [addRun, transport, transport_append, addResponse_transport, ih]

theorem addRun_length (c : Collaborators σ) (cid : String)
    (reqs : List AddDeviceServiceRequest) :
    ∀ s : σ, (addRun c cid reqs s).2.2.length = reqs.length := by
  induction reqs with
  | nil => intro s; rfl
  | cons x xs ih => intro s; simp [addRun, ih]

theorem addRun_calls (c : Collaborators σ) (cid : String)
    (reqs : List AddDeviceServiceRequest) :
    ∀ s : σ,
      domainCalls (addRun c cid reqs s).2.1
          = (sequentialAdds c (AddDeviceServiceReqToDeviceServiceModels c reqs) s).1
        ∧ (addRun c cid reqs s).1
          = (sequentialAdds c (AddDeviceServiceReqToDeviceServiceModels c reqs) s).2 := by
  induction reqs with
  | nil => intro s; exact ⟨rfl, rfl⟩
  | cons x xs ih =>
    intro s
    have h := ih (c.AddDeviceService (c.ToDeviceServiceModel x.Service) s).2
    simp only [AddDeviceServiceReqToDeviceServiceModels] at h
    simp [addRun, sequentialAdds, AddDeviceServiceReqToDeviceServiceModels, domainCalls,
      domainCalls_append, addResponse_domainCalls, h.1, h.2]

theorem addRun_item (c : Collaborators σ) (cid : String)
    (reqs : List AddDeviceServiceRequest) :
    ∀ (s : σ) (i : Nat) (dto : AddDeviceServiceRequest), reqs[i]? = some dto →
      ∃ res : Except EdgeX String,
        (domainCalls (addRun c cid reqs s).2.1)[i]?
            = some (.AddDeviceService (c.ToDeviceServiceModel dto.Service) res)
          ∧ (addRun c cid reqs s).2.2[i]?
            = some (addDeviceServiceResponse cid dto.RequestId
                (c.ToDeviceServiceModel dto.Service) res).2 := by
  induction reqs with
  | nil => intro s i dto h; simp at h
  | cons x xs ih =>
    intro s i dto h
    cases i with
    | zero =>
      simp at h
      subst h
      exact ⟨(c.AddDeviceService (c.ToDeviceServiceModel x.Service) s).1, by
        simp [addRun, domainCalls]⟩
    | succ j =>
      simp at h
      obtain ⟨res, h1, h2⟩ :=
        ih (c.AddDeviceService (c.ToDeviceServiceModel x.Service) s).2 j dto h
      exact ⟨res, by
        simp [addRun, domainCalls, domainCalls_append, addResponse_domainCalls, h1, h2]⟩

theorem addRun_logLines (c : Collaborators σ) (cid : String)
    (reqs : List AddDeviceServiceRequest) :
    ∀ s : σ,
      logLines (addRun c cid reqs s).2.1
        = (domainFailures (addRun c cid reqs s).2.1).flatMap (unguardedLogs cid) := by
  induction reqs with
  | nil => intro s; rfl
  | cons x xs ih =>
    intro s
    have h := ih (c.AddDeviceService (c.ToDeviceServiceModel x.Service) s).2
    simp only [domainFailures] at h
    simp only [addRun, logLines, domainFailures, domainCalls, logLines_append,
      domainCalls_append, addResponse_domainCalls, addResponse_logLines, h,
      List.nil_append]
    cases hres : failureOf (DomainCall.AddDeviceService (c.ToDeviceServiceModel x.Service)
      (c.AddDeviceService (c.ToDeviceServiceModel x.Service) s).1) <;>
      simp [List.filterMap_cons, hres]

theorem patchResponse_transport (cid reqId : String) (res : Option EdgeX) :
    transport (patchDeviceServiceResponse cid reqId res).1 = [] := by
  cases res <;> rfl

theorem patchResponse_domainCalls (cid reqId : String) (res : Option EdgeX) :
    domainCalls (patchDeviceServiceResponse cid reqId res).1 = [] := by
  cases res <;> rfl

theorem patchResponse_logLines (cid reqId : String) (u : UpdateDeviceService)
    (res : Option EdgeX) :
    logLines (patchDeviceServiceResponse cid reqId res).1
      = ((failureOf (.PatchDeviceService u res)).toList).flatMap (unguardedLogs cid) := by
  cases res <;> rfl

theorem patchLoop_transport (c : Collaborators σ) (cid : String)
    (reqs : List UpdateDeviceServiceRequest) :
    ∀ s : σ, transport (patchLoop c cid reqs s).2.1 = [] := by
  induction reqs with
  | nil => intro s; rfl
  | cons x xs ih =>
    intro s
    simp [patchLoop, transport, transport_append, patchResponse_transport, ih]

theorem patchLoop_length (c : Collaborators σ) (cid : String)
    (reqs : List UpdateDeviceServiceRequest) :
    ∀ s : σ, (patchLoop c cid reqs s).2.2.length = reqs.length := by
  induction reqs with
  | nil => intro s; rfl
  | cons x xs ih => intro s; simp [patchLoop, ih]

theorem patchLoop_calls (c : Collaborators σ) (cid : String)
    (reqs : List UpdateDeviceServiceRequest) :
    ∀ s : σ,
      domainCalls (patchLoop c cid reqs s).2.1
          = (sequentialPatches c (reqs.map (fun dto => dto.Service)) s).1
        ∧ (patchLoop c cid reqs s).1
          = (sequentialPatches c (reqs.map (fun dto => dto.Service)) s).2 := by
  induction reqs with
  | nil => intro s; exact ⟨rfl, rfl⟩
  | cons x xs ih =>
    intro s
    have h := ih (c.PatchDeviceService x.Service s).2
    simp [patchLoop, sequentialPatches, domainCalls, domainCalls_append,
      patchResponse_domainCalls, h.1, h.2]

theorem patchLoop_item (c : Collaborators σ) (cid : String)
    (reqs : List UpdateDeviceServiceRequest) :
    ∀ (s : σ) (i : Nat) (dto : UpdateDeviceServiceRequest), reqs[i]? = some dto →
      ∃ res : Option EdgeX,
        (domainCalls (patchLoop c cid reqs s).2.1)[i]?
            = some (.PatchDeviceService dto.Service res)
          ∧ (patchLoop c cid reqs s).2.2[i]?
            = some (patchDeviceServiceResponse cid dto.RequestId res).2 := by
  induction reqs with
  | nil => intro s i dto h; simp at h
  | cons x xs ih =>
    intro s i dto h
    cases i with
    | zero =>
      simp at h
      subst h
      exact ⟨(c.PatchDeviceService x.Service s).1, by simp [patchLoop, domainCalls]⟩
    | succ j =>
      simp at h
      obtain ⟨res, h1, h2⟩ := ih (c.PatchDeviceService x.Service s).2 j dto h
      exact ⟨res, by
        simp [patchLoop, domainCalls, domainCalls_append, patchResponse_domainCalls, h1, h2]⟩

theorem patchLoop_logLines (c : Collaborators σ) (cid : String)
    (reqs : List UpdateDeviceServiceRequest) :
    ∀ s : σ,
      logLines (patchLoop c cid reqs s).2.1
        = (domainFailures (patchLoop c cid reqs s).2.1).flatMap (unguardedLogs cid) := by
  induction reqs with
  | nil => intro s; rfl
  | cons x xs ih =>
    intro s
    have h := ih (c.PatchDeviceService x.Service s).2
    simp only [domainFailures] at h
    simp only [patchLoop, logLines, domainFailures, domainCalls, logLines_append,
      domainCalls_append, patchResponse_domainCalls,
      patchResponse_logLines cid x.RequestId x.Service, h, List.nil_append]
    cases hres : failureOf (DomainCall.PatchDeviceService x.Service
      (c.PatchDeviceService x.Service s).1) <;>
      simp [List.filterMap_cons, hres]

theorem sequentialAdds_length (c : Collaborators σ) (ds : List DeviceService) :
    ∀ s : σ, (sequentialAdds c ds s).1.length = ds.length := by
  induction ds with
  | nil => intro s; rfl
  | cons d rest ih => intro s; simp [sequentialAdds, ih]

theorem sequentialPatches_length (c : Collaborators σ) (us : List UpdateDeviceService) :
    ∀ s : σ, (sequentialPatches c us s).1.length = us.length := by
  induction us with
  | nil => intro s; rfl
  | cons u rest ih => intro s; simp [sequentialPatches, ih]

/-! ## The batch handlers in closed form -/

theorem AddDeviceService_of_read_ok (c : Collaborators σ) (r : Request) (s : σ)
    (reqs : List AddDeviceServiceRequest)
    (h : c.ReadAddDeviceServiceRequest r.Body = .ok reqs) :
    AddDeviceService c r s
      = some ((addRun c r.CorrelationId reqs s).1,
          (addRun c r.CorrelationId reqs s).2.1
            ++ [Effect.writeHeader StatusMultiStatus,
                Effect.encode (.multi (addRun c r.CorrelationId reqs s).2.2)]
            ++ deferredClose r) := by
  have hl := addLoop_eq_addRun c r.CorrelationId reqs [] s
  simp only [List.nil_append, List.length_nil] at hl
  unfold AddDeviceService
  simp only [h, hl]

theorem AddDeviceService_of_read_error (c : Collaborators σ) (r : Request) (s : σ)
    (err : EdgeX) (h : c.ReadAddDeviceServiceRequest r.Body = .error err) :
    AddDeviceService c r s
      = some (s, [Effect.logError err.Error r.CorrelationId,
                  Effect.logDebug err.DebugMessages r.CorrelationId,
                  Effect.writeHeader err.Code,
                  Effect.encode (.single (NewBaseResponse "" err.Message err.Code))]
                 ++ deferredClose r) := by
  unfold AddDeviceService
  simp only [h]

theorem PatchDeviceService_of_read_ok (c : Collaborators σ) (r : Request) (s : σ)
    (reqs : List UpdateDeviceServiceRequest)
    (h : c.ReadUpdateDeviceServiceRequest r.Body = .ok reqs) :
    PatchDeviceService c r s
      = ((patchLoop c r.CorrelationId reqs s).1,
          (patchLoop c r.CorrelationId reqs s).2.1
            ++ [Effect.writeHeader StatusMultiStatus,
                Effect.encode (.multi (patchLoop c r.CorrelationId reqs s).2.2)]
            ++ deferredClose r) := by
  unfold PatchDeviceService
  simp only [h]

theorem PatchDeviceService_of_read_error (c : Collaborators σ) (r : Request) (s : σ)
    (err : EdgeX) (h : c.ReadUpdateDeviceServiceRequest r.Body = .error err) :
    PatchDeviceService c r s
      = (s, [Effect.logError err.Error r.CorrelationId,
             Effect.logDebug err.DebugMessages r.CorrelationId,
             Effect.writeHeader err.Code,
             Effect.encode (.single (NewBaseResponse "" err.Message err.Code))]
            ++ deferredClose r) := by
  unfold PatchDeviceService
  simp only [h]

theorem transport_batch_tail (effects : List Effect) (envs : List Envelope) (r : Request)
    (h : transport effects = []) :
    transport (effects ++ [Effect.writeHeader StatusMultiStatus,
        Effect.encode (.multi envs)] ++ deferredClose r)
      = [Effect.writeHeader 207, Effect.encode (.multi envs)] := by
  simp [transport_append, transport_deferredClose, h, transport, StatusMultiStatus]

theorem domainCalls_batch_tail (effects : List Effect) (envs : List Envelope)
    (r : Request) :
    domainCalls (effects ++ [Effect.writeHeader StatusMultiStatus,
        Effect.encode (.multi envs)] ++ deferredClose r)
      = domainCalls effects := by
  simp [domainCalls_append, domainCalls_deferredClose, domainCalls]

theorem logLines_batch_tail (effects : List Effect) (envs : List Envelope)
    (r : Request) :
    logLines (effects ++ [Effect.writeHeader StatusMultiStatus,
        Effect.encode (.multi envs)] ++ deferredClose r)
      = logLines effects := by
  simp [logLines_append, logLines_deferredClose, logLines]

theorem codeMapping_ge (k : ErrKind) : 400 ≤ codeMapping k := by
  cases k <;> decide

end Loops

/-! ## The single-item handlers in closed form -/

section Single

variable {σ : Type}

theorem GetDeviceServiceByName_trace (c : Collaborators σ) (r : Request) (s : σ) :
    GetDeviceServiceByName c r s
      = ((c.GetDeviceServiceByName (r.Var c.Name) s).2,
         match (c.GetDeviceServiceByName (r.Var c.Name) s).1 with
         | .error err =>
           Effect.domain (.GetDeviceServiceByName (r.Var c.Name) (.error err))
             :: (guardedLogs r.CorrelationId err
               ++ [Effect.writeHeader err.Code,
                   Effect.encode (.single (NewBaseResponse "" err.Message err.Code))])
         | .ok deviceService =>
           [Effect.domain (.GetDeviceServiceByName (r.Var c.Name) (.ok deviceService)),
            Effect.writeHeader 200,
            Effect.encode
              (.single (NewDeviceServiceResponseNoMessage "" 200 deviceService))]) := by
  unfold GetDeviceServiceByName
  rcases h : c.GetDeviceServiceByName (r.Var c.Name) s with ⟨res, s1⟩
  cases res with
  | error err =>
    by_cases hk : err.kind = ErrKind.EntityDoesNotExist <;> simp [h, guardedLogs, hk]
  | ok deviceService => simp [h, StatusOK]

theorem DeleteDeviceServiceById_trace (c : Collaborators σ) (r : Request) (s : σ) :
    DeleteDeviceServiceById c r s
      = ((c.DeleteDeviceServiceById (r.Var c.Id) s).2,
         match (c.DeleteDeviceServiceById (r.Var c.Id) s).1 with
         | some err =>
           Effect.domain (.DeleteDeviceServiceById (r.Var c.Id) (some err))
             :: (guardedLogs r.CorrelationId err
               ++ [Effect.writeHeader err.Code,
                   Effect.encode (.single (NewBaseResponse "" err.Message err.Code))])
         | none =>
           [Effect.domain (.DeleteDeviceServiceById (r.Var c.Id) none),
            Effect.writeHeader 200,
            Effect.encode
              (.single (NewBaseResponse "" "Delete device service successfully" 200))]) := by
  unfold DeleteDeviceServiceById
  rcases h : c.DeleteDeviceServiceById (r.Var c.Id) s with ⟨res, s1⟩
  cases res with
  | some err =>
    by_cases hk : err.kind = ErrKind.EntityDoesNotExist <;> simp [h, guardedLogs, hk]
  | none => simp [h, StatusOK]

theorem DeleteDeviceServiceByName_trace (c : Collaborators σ) (r : Request) (s : σ) :
    DeleteDeviceServiceByName c r s
      = ((c.DeleteDeviceServiceByName (r.Var c.Name) s).2,
         match (c.DeleteDeviceServiceByName (r.Var c.Name) s).1 with
         | some err =>
           Effect.domain (.DeleteDeviceServiceByName (r.Var c.Name) (some err))
             :: (guardedLogs r.CorrelationId err
               ++ [Effect.writeHeader err.Code,
                   Effect.encode (.single (NewBaseResponse "" err.Message err.Code))])
         | none =>
           [Effect.domain (.DeleteDeviceServiceByName (r.Var c.Name) none),
            Effect.writeHeader 200,
            Effect.encode
              (.single (NewBaseResponse "" "Delete device service successfully" 200))]) := by
  unfold DeleteDeviceServiceByName
  rcases h : c.DeleteDeviceServiceByName (r.Var c.Name) s with ⟨res, s1⟩
  cases res with
  | some err =>
    by_cases hk : err.kind = ErrKind.EntityDoesNotExist <;> simp [h, guardedLogs, hk]
  | none => simp [h, StatusOK]

theorem GetAllDeviceServices_trace (c : Collaborators σ) (r : Request) (s : σ) :
    GetAllDeviceServices c r s
      = ((c.GetDeviceServices (c.ParseQueryStringToInt r c.Offset c.DefaultOffset).1
            (c.ParseQueryStringToInt r c.Limit c.DefaultLimit).1
            (c.ParseQueryStringToStrings r c.Labels c.CommaSeparator) s).2,
         parseFailureLogs r.CorrelationId
             (c.ParseQueryStringToInt r c.Offset c.DefaultOffset).2
           ++ parseFailureLogs r.CorrelationId
             (c.ParseQueryStringToInt r c.Limit c.DefaultLimit).2
           ++ (match (c.GetDeviceServices
                 (c.ParseQueryStringToInt r c.Offset c.DefaultOffset).1
                 (c.ParseQueryStringToInt r c.Limit c.DefaultLimit).1
                 (c.ParseQueryStringToStrings r c.Labels c.CommaSeparator) s).1 with
              | .error err =>
                Effect.domain (.GetDeviceServices
                    (c.ParseQueryStringToInt r c.Offset c.DefaultOffset).1
                    (c.ParseQueryStringToInt r c.Limit c.DefaultLimit).1
                    (c.ParseQueryStringToStrings r c.Labels c.CommaSeparator) (.error err))
                  :: (guardedLogs r.CorrelationId err
                    ++ [Effect.writeHeader err.Code,
                        Effect.encode (.single (NewBaseResponse "" err.Message err.Code))])
              | .ok deviceServices =>
                [Effect.domain (.GetDeviceServices
                    (c.ParseQueryStringToInt r c.Offset c.DefaultOffset).1
                    (c.ParseQueryStringToInt r c.Limit c.DefaultLimit).1
                    (c.ParseQueryStringToStrings r c.Labels c.CommaSeparator)
                    (.ok deviceServices)),
                 Effect.writeHeader 200,
                 Effect.encode
                   (.single (NewMultiDeviceServicesResponse "" "" 200 deviceServices))])) := by
  unfold GetAllDeviceServices
  rcases h : c.GetDeviceServices (c.ParseQueryStringToInt r c.Offset c.DefaultOffset).1
      (c.ParseQueryStringToInt r c.Limit c.DefaultLimit).1
      (c.ParseQueryStringToStrings r c.Labels c.CommaSeparator) s with ⟨res, s1⟩
  cases res with
  | error err =>
    by_cases hk : err.kind = ErrKind.EntityDoesNotExist <;>
      simp [h, guardedLogs, listFailureLogs, afterList, hk]
  | ok deviceServices => simp [h, listFailureLogs, afterList, StatusOK]

theorem logLines_parseFailureLogs (cid : String) (err : Option EdgeX) :
    logLines (parseFailureLogs cid err) = parseFailureLogs cid err := by
  cases err <;> rfl

theorem transport_parseFailureLogs (cid : String) (err : Option EdgeX) :
    transport (parseFailureLogs cid err) = [] := by
  cases err <;> rfl

theorem domainCalls_parseFailureLogs (cid : String) (err : Option EdgeX) :
    domainCalls (parseFailureLogs cid err) = [] := by
  cases err <;> rfl

theorem logLines_guardedLogs (cid : String) (err : EdgeX) :
    logLines (guardedLogs cid err) = guardedLogs cid err := by
  unfold guardedLogs; split <;> rfl

theorem transport_guardedLogs (cid : String) (err : EdgeX) :
    transport (guardedLogs cid err) = [] := by
  unfold guardedLogs; split <;> rfl

theorem domainCalls_guardedLogs (cid : String) (err : EdgeX) :
    domainCalls (guardedLogs cid err) = [] := by
  unfold guardedLogs; split <;> rfl

end Single

/-! ## Batch endpoints -/

/-- C1: for `AddDeviceService` and `PatchDeviceService`, whenever the request reader
succeeds with N items, the handler returns, the status written is 207, the body is a
sequence of exactly N envelopes, and envelope `i` carries the request id of item `i`,
for every behaviour of the domain layer. -/
theorem batch_response_multi_status_in_input_order {σ : Type} (c : Collaborators σ)
    (rAdd rPatch : Request) (s : σ)
    (addReqs : List AddDeviceServiceRequest) (updReqs : List UpdateDeviceServiceRequest)
    (hAdd : c.ReadAddDeviceServiceRequest rAdd.Body = .ok addReqs)
    (hPatch : c.ReadUpdateDeviceServiceRequest rPatch.Body = .ok updReqs) :
    (∃ (s1 : σ) (tr : List Effect) (envs : List Envelope), AddDeviceService c rAdd s = some (s1, tr)
        ∧ transport tr = [Effect.writeHeader 207, Effect.encode (.multi envs)]
        ∧ envs.length = addReqs.length
        ∧ ∀ (i : Nat) (dto : AddDeviceServiceRequest), addReqs[i]? = some dto →
            ∃ e : Envelope, envs[i]? = some e ∧ e.requestId = dto.RequestId)
    ∧ (∃ (s1 : σ) (tr : List Effect) (envs : List Envelope),
          PatchDeviceService c rPatch s = (s1, tr)
        ∧ transport tr = [Effect.writeHeader 207, Effect.encode (.multi envs)]
        ∧ envs.length = updReqs.length
        ∧ ∀ (i : Nat) (dto : UpdateDeviceServiceRequest), updReqs[i]? = some dto →
            ∃ e : Envelope, envs[i]? = some e ∧ e.requestId = dto.RequestId) := by
  refine ⟨⟨_, _, _, AddDeviceService_of_read_ok c rAdd s addReqs hAdd,
      transport_batch_tail _ _ _ (addRun_transport c _ addReqs s),
      addRun_length c _ addReqs s, ?_⟩,
    ⟨_, _, _, PatchDeviceService_of_read_ok c rPatch s updReqs hPatch,
      transport_batch_tail _ _ _ (patchLoop_transport c _ updReqs s),
      patchLoop_length c _ updReqs s, ?_⟩⟩
  · intro i dto h
    obtain ⟨res, _, h2⟩ := addRun_item c rAdd.CorrelationId addReqs s i dto h
    exact ⟨_, h2, by cases res <;> rfl⟩
  · intro i dto h
    obtain ⟨res, _, h2⟩ := patchLoop_item c rPatch.CorrelationId updReqs s i dto h
    exact ⟨_, h2, by cases res <;> rfl⟩

/-- C1 at the sample deployment: the three add requests and the two update requests. -/
theorem batch_response_multi_status_in_input_order_witness :
    (sample.ReadAddDeviceServiceRequest sampleAddRequest.Body = .ok sampleAddRequests
      ∧ sample.ReadUpdateDeviceServiceRequest samplePatchRequest.Body
          = .ok sampleUpdateRequests)
    ∧ ((∃ (s1 : List String) (tr : List Effect) (envs : List Envelope),
          AddDeviceService sample sampleAddRequest ["svc-b"] = some (s1, tr)
        ∧ transport tr = [Effect.writeHeader 207, Effect.encode (.multi envs)]
        ∧ envs.length = sampleAddRequests.length
        ∧ ∀ (i : Nat) (dto : AddDeviceServiceRequest), sampleAddRequests[i]? = some dto →
            ∃ e : Envelope, envs[i]? = some e ∧ e.requestId = dto.RequestId)
      ∧ (∃ (s1 : List String) (tr : List Effect) (envs : List Envelope),
            PatchDeviceService sample samplePatchRequest ["svc-b"] = (s1, tr)
        ∧ transport tr = [Effect.writeHeader 207, Effect.encode (.multi envs)]
        ∧ envs.length = sampleUpdateRequests.length
        ∧ ∀ (i : Nat) (dto : UpdateDeviceServiceRequest), sampleUpdateRequests[i]? = some dto →
            ∃ e : Envelope, envs[i]? = some e ∧ e.requestId = dto.RequestId)) :=
  ⟨⟨rfl, rfl⟩,
    batch_response_multi_status_in_input_order sample sampleAddRequest samplePatchRequest
      ["svc-b"] sampleAddRequests sampleUpdateRequests rfl rfl⟩

/-- C2: in a batch create of N items, for every behaviour of the domain create (so
for every set of failing indices), the handler returns N envelopes and makes N domain
calls, and for every index `i`: when call `i`, on the model of item `i`, failed with
`err`, envelope `i` carries the status `err.Code`, which is at least 400 and so is not
a success status, and no identifier; when call `i` returned `newId`, envelope `i`
carries status 201 and the identifier `newId`. -/
theorem batch_create_item_status {σ : Type} (c : Collaborators σ) (r : Request) (s : σ)
    (reqs : List AddDeviceServiceRequest)
    (hRead : c.ReadAddDeviceServiceRequest r.Body = .ok reqs) :
    ∃ (s1 : σ) (tr : List Effect) (envs : List Envelope), AddDeviceService c r s = some (s1, tr)
      ∧ transport tr = [Effect.writeHeader 207, Effect.encode (.multi envs)]
      ∧ envs.length = reqs.length
      ∧ (domainCalls tr).length = reqs.length
      ∧ ∀ (i : Nat) (dto : AddDeviceServiceRequest), reqs[i]? = some dto →
          ∃ (res : Except EdgeX String) (e : Envelope),
            (domainCalls tr)[i]?
                = some (.AddDeviceService (c.ToDeviceServiceModel dto.Service) res)
              ∧ envs[i]? = some e
              ∧ match res with
                | .error err =>
                  e.statusCode = err.Code ∧ 400 ≤ err.Code ∧ e.statusCode ≠ 201
                    ∧ e.payload = Payload.none
                | .ok newId => e.statusCode = 201 ∧ e.payload = Payload.id newId := by
  refine ⟨_, _, _, AddDeviceService_of_read_ok c r s reqs hRead,
    transport_batch_tail _ _ _ (addRun_transport c _ reqs s),
    addRun_length c _ reqs s, ?_, ?_⟩
  · rw [domainCalls_batch_tail, (addRun_calls c r.CorrelationId reqs s).1,
      sequentialAdds_length]
    simp [AddDeviceServiceReqToDeviceServiceModels]
  · intro i dto h
    obtain ⟨res, h1, h2⟩ := addRun_item c r.CorrelationId reqs s i dto h
    refine ⟨res, _, ?_, h2, ?_⟩
    · rw [domainCalls_batch_tail]; exact h1
    · cases res with
      | error err =>
        have hge : 400 ≤ err.Code := codeMapping_ge err.kind
        refine ⟨rfl, hge, ?_, rfl⟩
        show err.Code ≠ 201
        omega
      | ok newId => exact ⟨rfl, rfl⟩

/-- C2 at the sample deployment: of the three add requests the second (no name) and
the third (duplicate name) fail. -/
theorem batch_create_item_status_witness :
    sample.ReadAddDeviceServiceRequest sampleAddRequest.Body = .ok sampleAddRequests
    ∧ ∃ (s1 : List String) (tr : List Effect) (envs : List Envelope),
          AddDeviceService sample sampleAddRequest [] = some (s1, tr)
      ∧ transport tr = [Effect.writeHeader 207, Effect.encode (.multi envs)]
      ∧ envs.length = sampleAddRequests.length
      ∧ (domainCalls tr).length = sampleAddRequests.length
      ∧ ∀ (i : Nat) (dto : AddDeviceServiceRequest), sampleAddRequests[i]? = some dto →
          ∃ (res : Except EdgeX String) (e : Envelope),
            (domainCalls tr)[i]?
                = some (.AddDeviceService (sample.ToDeviceServiceModel dto.Service) res)
              ∧ envs[i]? = some e
              ∧ match res with
                | .error err =>
                  e.statusCode = err.Code ∧ 400 ≤ err.Code ∧ e.statusCode ≠ 201
                    ∧ e.payload = Payload.none
                | .ok newId => e.statusCode = 201 ∧ e.payload = Payload.id newId :=
  ⟨rfl, batch_create_item_status sample sampleAddRequest [] sampleAddRequests rfl⟩

/-- C3: for both batch endpoints, once the reader has succeeded, the handler returns
and its domain calls are exactly the calls of invoking the domain operation once per
item, in input order, each on the state the previous call left, whatever the calls
return: there are N calls, call `i` is on the payload of item `i`, and the final
domain state is the state after the last call. -/
theorem batch_domain_calls_once_per_item_in_order {σ : Type} (c : Collaborators σ)
    (rAdd rPatch : Request) (s : σ)
    (addReqs : List AddDeviceServiceRequest) (updReqs : List UpdateDeviceServiceRequest)
    (hAdd : c.ReadAddDeviceServiceRequest rAdd.Body = .ok addReqs)
    (hPatch : c.ReadUpdateDeviceServiceRequest rPatch.Body = .ok updReqs) :
    (∃ (s1 : σ) (tr : List Effect), AddDeviceService c rAdd s = some (s1, tr)
        ∧ (domainCalls tr, s1)
            = sequentialAdds c (addReqs.map (fun dto => c.ToDeviceServiceModel dto.Service)) s
        ∧ (domainCalls tr).length = addReqs.length
        ∧ ∀ (i : Nat) (dto : AddDeviceServiceRequest), addReqs[i]? = some dto →
            ∃ res : Except EdgeX String, (domainCalls tr)[i]?
              = some (.AddDeviceService (c.ToDeviceServiceModel dto.Service) res))
    ∧ (∃ (s1 : σ) (tr : List Effect), PatchDeviceService c rPatch s = (s1, tr)
        ∧ (domainCalls tr, s1) = sequentialPatches c (updReqs.map (fun dto => dto.Service)) s
        ∧ (domainCalls tr).length = updReqs.length
        ∧ ∀ (i : Nat) (dto : UpdateDeviceServiceRequest), updReqs[i]? = some dto →
            ∃ res : Option EdgeX,
                  (domainCalls tr)[i]? = some (.PatchDeviceService dto.Service res)) := by
  have hA := addRun_calls c rAdd.CorrelationId addReqs s
  have hP := patchLoop_calls c rPatch.CorrelationId updReqs s
  simp only [AddDeviceServiceReqToDeviceServiceModels] at hA
  refine ⟨⟨_, _, AddDeviceService_of_read_ok c rAdd s addReqs hAdd, ?_, ?_, ?_⟩,
    ⟨_, _, PatchDeviceService_of_read_ok c rPatch s updReqs hPatch, ?_, ?_, ?_⟩⟩
  · rw [domainCalls_batch_tail, hA.1, hA.2]
  · rw [domainCalls_batch_tail, hA.1, sequentialAdds_length]; simp
  · intro i dto h
    obtain ⟨res, h1, _⟩ := addRun_item c rAdd.CorrelationId addReqs s i dto h
    exact ⟨res, by rw [domainCalls_batch_tail]; exact h1⟩
  · rw [domainCalls_batch_tail, hP.1, hP.2]
  · rw [domainCalls_batch_tail, hP.1, sequentialPatches_length]; simp
  · intro i dto h
    obtain ⟨res, h1, _⟩ := patchLoop_item c rPatch.CorrelationId updReqs s i dto h
    exact ⟨res, by rw [domainCalls_batch_tail]; exact h1⟩

/-- C3 at the sample deployment, where the second and third create and the second
patch fail. -/
theorem batch_domain_calls_once_per_item_in_order_witness :
    (sample.ReadAddDeviceServiceRequest sampleAddRequest.Body = .ok sampleAddRequests
      ∧ sample.ReadUpdateDeviceServiceRequest samplePatchRequest.Body
          = .ok sampleUpdateRequests)
    ∧ ((∃ (s1 : List String) (tr : List Effect),
          AddDeviceService sample sampleAddRequest ["svc-a"] = some (s1, tr)
        ∧ (domainCalls tr, s1)
            = sequentialAdds sample
                (sampleAddRequests.map (fun dto => sample.ToDeviceServiceModel dto.Service))
                ["svc-a"]
        ∧ (domainCalls tr).length = sampleAddRequests.length
        ∧ ∀ (i : Nat) (dto : AddDeviceServiceRequest), sampleAddRequests[i]? = some dto →
            ∃ res : Except EdgeX String, (domainCalls tr)[i]?
              = some (.AddDeviceService (sample.ToDeviceServiceModel dto.Service) res))
      ∧ (∃ (s1 : List String) (tr : List Effect),
            PatchDeviceService sample samplePatchRequest ["svc-a"] = (s1, tr)
        ∧ (domainCalls tr, s1)
            = sequentialPatches sample (sampleUpdateRequests.map (fun dto => dto.Service))
                ["svc-a"]
        ∧ (domainCalls tr).length = sampleUpdateRequests.length
        ∧ ∀ (i : Nat) (dto : UpdateDeviceServiceRequest), sampleUpdateRequests[i]? = some dto →
            ∃ res : Option EdgeX,
                  (domainCalls tr)[i]? = some (.PatchDeviceService dto.Service res))) :=
  ⟨⟨rfl, rfl⟩,
    batch_domain_calls_once_per_item_in_order sample sampleAddRequest samplePatchRequest
      ["svc-a"] sampleAddRequests sampleUpdateRequests rfl rfl⟩

/-- C4: for `AddDeviceService` and `PatchDeviceService`, if the request reader fails
with `err`, the handler returns without any domain call and with the domain state
untouched, the status written is `err.Code`, which is not 207, and the body is the
single envelope with empty request id, the message of `err` and the code of `err`. -/
theorem batch_reader_failure_single_response {σ : Type} (c : Collaborators σ)
    (rAdd rPatch : Request) (s : σ) (errAdd errPatch : EdgeX)
    (hAdd : c.ReadAddDeviceServiceRequest rAdd.Body = .error errAdd)
    (hPatch : c.ReadUpdateDeviceServiceRequest rPatch.Body = .error errPatch) :
    (∃ tr : List Effect, AddDeviceService c rAdd s = some (s, tr)
        ∧ domainCalls tr = []
        ∧ transport tr
            = [Effect.writeHeader errAdd.Code,
               Effect.encode (.single
                 { requestId := "", message := errAdd.Message, statusCode := errAdd.Code,
                   payload := Payload.none })]
        ∧ errAdd.Code ≠ 207)
    ∧ (∃ tr : List Effect, PatchDeviceService c rPatch s = (s, tr)
        ∧ domainCalls tr = []
        ∧ transport tr
            = [Effect.writeHeader errPatch.Code,
               Effect.encode (.single
                 { requestId := "", message := errPatch.Message,
                   statusCode := errPatch.Code, payload := Payload.none })]
        ∧ errPatch.Code ≠ 207) := by
  have hA : 400 ≤ errAdd.Code := codeMapping_ge errAdd.kind
  have hP : 400 ≤ errPatch.Code := codeMapping_ge errPatch.kind
  refine ⟨⟨_, AddDeviceService_of_read_error c rAdd s errAdd hAdd, ?_, ?_, by omega⟩,
    ⟨_, PatchDeviceService_of_read_error c rPatch s errPatch hPatch, ?_, ?_, by omega⟩⟩
  · simp [domainCalls_append, domainCalls_deferredClose, domainCalls]
  · simp [transport_append, transport_deferredClose, transport, NewBaseResponse]
  · simp [domainCalls_append, domainCalls_deferredClose, domainCalls]
  · simp [transport_append, transport_deferredClose, transport, NewBaseResponse]

/-- C4 at the sample deployment: a body the sample reader cannot decode. -/
theorem batch_reader_failure_single_response_witness :
    (sample.ReadAddDeviceServiceRequest sampleMalformedRequest.Body = .error sampleMalformed
      ∧ sample.ReadUpdateDeviceServiceRequest sampleMalformedRequest.Body
          = .error sampleMalformed)
    ∧ ((∃ tr : List Effect, AddDeviceService sample sampleMalformedRequest ["svc-a"]
            = some (["svc-a"], tr)
        ∧ domainCalls tr = []
        ∧ transport tr
            = [Effect.writeHeader sampleMalformed.Code,
               Effect.encode (.single
                 { requestId := "", message := sampleMalformed.Message,
                   statusCode := sampleMalformed.Code, payload := Payload.none })]
        ∧ sampleMalformed.Code ≠ 207)
      ∧ (∃ tr : List Effect,
            PatchDeviceService sample sampleMalformedRequest ["svc-a"] = (["svc-a"], tr)
        ∧ domainCalls tr = []
        ∧ transport tr
            = [Effect.writeHeader sampleMalformed.Code,
               Effect.encode (.single
                 { requestId := "", message := sampleMalformed.Message,
                   statusCode := sampleMalformed.Code, payload := Payload.none })]
        ∧ sampleMalformed.Code ≠ 207)) :=
  ⟨⟨rfl, rfl⟩,
    batch_reader_failure_single_response sample sampleMalformedRequest
      sampleMalformedRequest ["svc-a"] sampleMalformed sampleMalformed rfl rfl⟩

/-! ## Single-item endpoints -/

/-- C7: for `GetDeviceServiceByName`, when the domain lookup fails with an error of
kind `EntityDoesNotExist`, the status written is 404, which is the code of the error,
the envelope carries that status and the message of the error, no error-severity log
line is written and exactly one debug-severity log line is written. -/
theorem get_by_name_not_found_debug_only {σ : Type} (c : Collaborators σ) (r : Request)
    (s s1 : σ) (err : EdgeX)
    (hGet : c.GetDeviceServiceByName (r.Var c.Name) s = (.error err, s1))
    (hKind : err.kind = ErrKind.EntityDoesNotExist) :
    transport (GetDeviceServiceByName c r s).2
        = [Effect.writeHeader 404,
           Effect.encode (.single
             { requestId := "", message := err.Message, statusCode := 404,
               payload := Payload.none })]
      ∧ err.Code = 404
      ∧ errorLogs (GetDeviceServiceByName c r s).2 = []
      ∧ debugLogs (GetDeviceServiceByName c r s).2
          = [Effect.logDebug err.DebugMessages r.CorrelationId] := by
  have hCode : err.Code = 404 := by simp [EdgeX.Code, hKind, codeMapping]
  rw [GetDeviceServiceByName_trace, hGet]
  refine ⟨?_, hCode, ?_, ?_⟩
  · simp [transport, transport_append, transport_guardedLogs, NewBaseResponse, hCode]
  · simp [errorLogs, guardedLogs, hKind]
  · simp [debugLogs, guardedLogs, hKind]

/-- C7 at the sample deployment: a lookup of the name `unknown-name`. -/
theorem get_by_name_not_found_debug_only_witness :
    (sample.GetDeviceServiceByName (sampleUnknownNameRequest.Var sample.Name) ["svc-a"]
        = (.error sampleNotFound, ["svc-a"])
      ∧ sampleNotFound.kind = ErrKind.EntityDoesNotExist)
    ∧ (transport (GetDeviceServiceByName sample sampleUnknownNameRequest ["svc-a"]).2
        = [Effect.writeHeader 404,
           Effect.encode (.single
             { requestId := "", message := sampleNotFound.Message, statusCode := 404,
               payload := Payload.none })]
      ∧ sampleNotFound.Code = 404
      ∧ errorLogs (GetDeviceServiceByName sample sampleUnknownNameRequest ["svc-a"]).2 = []
      ∧ debugLogs (GetDeviceServiceByName sample sampleUnknownNameRequest ["svc-a"]).2
          = [Effect.logDebug sampleNotFound.DebugMessages
              sampleUnknownNameRequest.CorrelationId]) :=
  ⟨⟨rfl, rfl⟩,
    get_by_name_not_found_debug_only sample sampleUnknownNameRequest ["svc-a"] ["svc-a"]
      sampleNotFound rfl rfl⟩

/-- C9: for each single-item endpoint (get by name, delete by id, delete by name,
list) and every outcome of its domain call, the writes to the transport are one
status write followed by one encode of a single envelope, the status written equals
the status code inside the envelope, and it is 200 when the domain call succeeds and
the code of the domain error, with the message of the error and an empty request id,
when the call fails. -/
theorem single_item_status_matches_envelope {σ : Type} (c : Collaborators σ)
    (r : Request) (s : σ) :
    (∃ (st : Nat) (e : Envelope),
        transport (GetDeviceServiceByName c r s).2
            = [Effect.writeHeader st, Effect.encode (.single e)]
          ∧ e.statusCode = st
          ∧ match (c.GetDeviceServiceByName (r.Var c.Name) s).1 with
            | .ok _ => st = 200
            | .error err => st = err.Code ∧ e.message = err.Message ∧ e.requestId = "")
    ∧ (∃ (st : Nat) (e : Envelope),
        transport (DeleteDeviceServiceById c r s).2
            = [Effect.writeHeader st, Effect.encode (.single e)]
          ∧ e.statusCode = st
          ∧ match (c.DeleteDeviceServiceById (r.Var c.Id) s).1 with
            | none => st = 200
            | some err => st = err.Code ∧ e.message = err.Message ∧ e.requestId = "")
    ∧ (∃ (st : Nat) (e : Envelope),
        transport (DeleteDeviceServiceByName c r s).2
            = [Effect.writeHeader st, Effect.encode (.single e)]
          ∧ e.statusCode = st
          ∧ match (c.DeleteDeviceServiceByName (r.Var c.Name) s).1 with
            | none => st = 200
            | some err => st = err.Code ∧ e.message = err.Message ∧ e.requestId = "")
    ∧ (∃ (st : Nat) (e : Envelope),
        transport (GetAllDeviceServices c r s).2
            = [Effect.writeHeader st, Effect.encode (.single e)]
          ∧ e.statusCode = st
          ∧ match (c.GetDeviceServices
                (c.ParseQueryStringToInt r c.Offset c.DefaultOffset).1
                (c.ParseQueryStringToInt r c.Limit c.DefaultLimit).1
                (c.ParseQueryStringToStrings r c.Labels c.CommaSeparator) s).1 with
            | .ok _ => st = 200
            | .error err => st = err.Code ∧ e.message = err.Message ∧ e.requestId = "") := by
  refine ⟨?_, ?_, ?_, ?_⟩
  · rw [GetDeviceServiceByName_trace]
    cases (c.GetDeviceServiceByName (r.Var c.Name) s).1 with
    | error err =>
      exact ⟨err.Code, NewBaseResponse "" err.Message err.Code, by
        simp [transport, transport_append, transport_guardedLogs], rfl, rfl, rfl, rfl⟩
    | ok ds =>
      exact ⟨200, NewDeviceServiceResponseNoMessage "" 200 ds, by simp [transport], rfl, rfl⟩
  · rw [DeleteDeviceServiceById_trace]
    cases (c.DeleteDeviceServiceById (r.Var c.Id) s).1 with
    | some err =>
      exact ⟨err.Code, NewBaseResponse "" err.Message err.Code, by
        simp [transport, transport_append, transport_guardedLogs], rfl, rfl, rfl, rfl⟩
    | none =>
      exact ⟨200, NewBaseResponse "" "Delete device service successfully" 200, by
        simp [transport], rfl, rfl⟩
  · rw [DeleteDeviceServiceByName_trace]
    cases (c.DeleteDeviceServiceByName (r.Var c.Name) s).1 with
    | some err =>
      exact ⟨err.Code, NewBaseResponse "" err.Message err.Code, by
        simp [transport, transport_append, transport_guardedLogs], rfl, rfl, rfl, rfl⟩
    | none =>
      exact ⟨200, NewBaseResponse "" "Delete device service successfully" 200, by
        simp [transport], rfl, rfl⟩
  · rw [GetAllDeviceServices_trace]
    cases (c.GetDeviceServices (c.ParseQueryStringToInt r c.Offset c.DefaultOffset).1
        (c.ParseQueryStringToInt r c.Limit c.DefaultLimit).1
        (c.ParseQueryStringToStrings r c.Labels c.CommaSeparator) s).1 with
    | error err =>
      exact ⟨err.Code, NewBaseResponse "" err.Message err.Code, by
        simp [transport, transport_append, transport_guardedLogs,
          transport_parseFailureLogs], rfl, rfl, rfl, rfl⟩
    | ok dss =>
      exact ⟨200, NewMultiDeviceServicesResponse "" "" 200 dss, by
        simp [transport, transport_append, transport_parseFailureLogs], rfl, rfl⟩

/-! ## Every handler writes one response -/

/-- C10: on every execution path of every handler (success, reader failure, query
parameter failure, domain failure) the handler returns, and the writes to the
transport in its trace are exactly one status/header write followed by exactly one
body encode. -/
theorem one_header_write_then_one_body_encode {σ : Type} (c : Collaborators σ)
    (r : Request) (s : σ) :
    (∃ (s1 : σ) (tr : List Effect) (st : Nat) (b : ResponseBody),
        AddDeviceService c r s = some (s1, tr)
          ∧ transport tr = [Effect.writeHeader st, Effect.encode b])
    ∧ (∃ (st : Nat) (b : ResponseBody),
        transport (GetDeviceServiceByName c r s).2
          = [Effect.writeHeader st, Effect.encode b])
    ∧ (∃ (st : Nat) (b : ResponseBody),
        transport (PatchDeviceService c r s).2 = [Effect.writeHeader st, Effect.encode b])
    ∧ (∃ (st : Nat) (b : ResponseBody),
        transport (DeleteDeviceServiceById c r s).2
          = [Effect.writeHeader st, Effect.encode b])
    ∧ (∃ (st : Nat) (b : ResponseBody),
        transport (DeleteDeviceServiceByName c r s).2
          = [Effect.writeHeader st, Effect.encode b])
    ∧ (∃ (st : Nat) (b : ResponseBody),
        transport (GetAllDeviceServices c r s).2
          = [Effect.writeHeader st, Effect.encode b]) := by
  refine ⟨?_, ?_, ?_, ?_, ?_, ?_⟩
  · cases h : c.ReadAddDeviceServiceRequest r.Body with
    | error err =>
      exact ⟨_, _, err.Code, _, AddDeviceService_of_read_error c r s err h, by
        simp [transport_append, transport_deferredClose, transport]; rfl⟩
    | ok reqs =>
      exact ⟨_, _, 207, _, AddDeviceService_of_read_ok c r s reqs h,
        transport_batch_tail _ _ _ (addRun_transport c _ reqs s)⟩
  · rw [GetDeviceServiceByName_trace]
    cases (c.GetDeviceServiceByName (r.Var c.Name) s).1 with
    | error err =>
      exact ⟨err.Code, _, by
        simp [transport, transport_append, transport_guardedLogs]; rfl⟩
    | ok ds => exact ⟨200, _, by
        simp [transport]; rfl⟩
  · cases h : c.ReadUpdateDeviceServiceRequest r.Body with
    | error err =>
      rw [PatchDeviceService_of_read_error c r s err h]
      exact ⟨err.Code, _, by
        simp [transport_append, transport_deferredClose, transport]; rfl⟩
    | ok reqs =>
      rw [PatchDeviceService_of_read_ok c r s reqs h]
      exact ⟨207, _, transport_batch_tail _ _ _ (patchLoop_transport c _ reqs s)⟩
  · rw [DeleteDeviceServiceById_trace]
    cases (c.DeleteDeviceServiceById (r.Var c.Id) s).1 with
    | some err =>
      exact ⟨err.Code, _, by
        simp [transport, transport_append, transport_guardedLogs]; rfl⟩
    | none => exact ⟨200, _, by
        simp [transport]; rfl⟩
  · rw [DeleteDeviceServiceByName_trace]
    cases (c.DeleteDeviceServiceByName (r.Var c.Name) s).1 with
    | some err =>
      exact ⟨err.Code, _, by
        simp [transport, transport_append, transport_guardedLogs]; rfl⟩
    | none => exact ⟨200, _, by
        simp [transport]; rfl⟩
  · rw [GetAllDeviceServices_trace]
    cases (c.GetDeviceServices (c.ParseQueryStringToInt r c.Offset c.DefaultOffset).1
        (c.ParseQueryStringToInt r c.Limit c.DefaultLimit).1
        (c.ParseQueryStringToStrings r c.Labels c.CommaSeparator) s).1 with
    | error err =>
      exact ⟨err.Code, _, by
        simp [transport, transport_append, transport_guardedLogs,
          transport_parseFailureLogs]; rfl⟩
    | ok dss =>
      exact ⟨200, _, by
        simp [transport, transport_append, transport_parseFailureLogs]; rfl⟩

/-! ## Log severity of domain failures -/

/-- C8, as the code has it: on the batch endpoints (add, patch), once the reader has
succeeded, the log lines are one error-severity line followed by one debug-severity
line for every failed domain call, whatever the kind of the error; on the single-item
endpoints (get by name, delete by id, delete by name, list) there is one domain call,
and a failure of it is logged with the debug-severity line only when its kind is
`EntityDoesNotExist` and with one error-severity line followed by one debug-severity
line otherwise (on the list endpoint after the lines of the query parameter
failures). -/
theorem domain_failure_log_severity {σ : Type} (c : Collaborators σ)
    (rAdd rPatch r : Request) (s : σ)
    (addReqs : List AddDeviceServiceRequest) (updReqs : List UpdateDeviceServiceRequest)
    (hAdd : c.ReadAddDeviceServiceRequest rAdd.Body = .ok addReqs)
    (hPatch : c.ReadUpdateDeviceServiceRequest rPatch.Body = .ok updReqs) :
    (∃ (s1 : σ) (tr : List Effect), AddDeviceService c rAdd s = some (s1, tr)
        ∧ logLines tr
            = (domainFailures tr).flatMap (fun err =>
                [Effect.logError err.Error rAdd.CorrelationId,
                 Effect.logDebug err.DebugMessages rAdd.CorrelationId]))
    ∧ logLines (PatchDeviceService c rPatch s).2
        = (domainFailures (PatchDeviceService c rPatch s).2).flatMap (fun err =>
            [Effect.logError err.Error rPatch.CorrelationId,
             Effect.logDebug err.DebugMessages rPatch.CorrelationId])
    ∧ ((domainCalls (GetDeviceServiceByName c r s).2).length = 1
        ∧ logLines (GetDeviceServiceByName c r s).2
          = (domainFailures (GetDeviceServiceByName c r s).2).flatMap (fun err =>
              if err.kind = ErrKind.EntityDoesNotExist
              then [Effect.logDebug err.DebugMessages r.CorrelationId]
              else [Effect.logError err.Error r.CorrelationId,
                    Effect.logDebug err.DebugMessages r.CorrelationId]))
    ∧ ((domainCalls (DeleteDeviceServiceById c r s).2).length = 1
        ∧ logLines (DeleteDeviceServiceById c r s).2
          = (domainFailures (DeleteDeviceServiceById c r s).2).flatMap (fun err =>
              if err.kind = ErrKind.EntityDoesNotExist
              then [Effect.logDebug err.DebugMessages r.CorrelationId]
              else [Effect.logError err.Error r.CorrelationId,
                    Effect.logDebug err.DebugMessages r.CorrelationId]))
    ∧ ((domainCalls (DeleteDeviceServiceByName c r s).2).length = 1
        ∧ logLines (DeleteDeviceServiceByName c r s).2
          = (domainFailures (DeleteDeviceServiceByName c r s).2).flatMap (fun err =>
              if err.kind = ErrKind.EntityDoesNotExist
              then [Effect.logDebug err.DebugMessages r.CorrelationId]
              else [Effect.logError err.Error r.CorrelationId,
                    Effect.logDebug err.DebugMessages r.CorrelationId]))
    ∧ ((domainCalls (GetAllDeviceServices c r s).2).length = 1
        ∧ logLines (GetAllDeviceServices c r s).2
          = parseFailureLogs r.CorrelationId
                (c.ParseQueryStringToInt r c.Offset c.DefaultOffset).2
              ++ parseFailureLogs r.CorrelationId
                (c.ParseQueryStringToInt r c.Limit c.DefaultLimit).2
              ++ (domainFailures (GetAllDeviceServices c r s).2).flatMap (fun err =>
                  if err.kind = ErrKind.EntityDoesNotExist
                  then [Effect.logDebug err.DebugMessages r.CorrelationId]
                  else [Effect.logError err.Error r.CorrelationId,
                        Effect.logDebug err.DebugMessages r.CorrelationId])) := by
  refine ⟨⟨_, _, AddDeviceService_of_read_ok c rAdd s addReqs hAdd, ?_⟩, ?_, ?_, ?_, ?_, ?_⟩
  · have h := addRun_logLines c rAdd.CorrelationId addReqs s
    simp only [domainFailures, unguardedLogs] at h
    simp only [domainFailures, logLines_batch_tail, domainCalls_batch_tail]
    exact h
  · have h := patchLoop_logLines c rPatch.CorrelationId updReqs s
    simp only [domainFailures, unguardedLogs] at h
    rw [PatchDeviceService_of_read_ok c rPatch s updReqs hPatch]
    simp only [domainFailures, logLines_batch_tail, domainCalls_batch_tail]
    exact h
  · rw [GetDeviceServiceByName_trace]
    cases (c.GetDeviceServiceByName (r.Var c.Name) s).1 with
    | error err =>
      by_cases hk : err.kind = ErrKind.EntityDoesNotExist <;>
        simp [domainFailures, domainCalls, logLines, failureOf, guardedLogs, hk]
    | ok ds => simp [domainFailures, domainCalls, logLines, failureOf]
  · rw [DeleteDeviceServiceById_trace]
    cases (c.DeleteDeviceServiceById (r.Var c.Id) s).1 with
    | some err =>
      by_cases hk : err.kind = ErrKind.EntityDoesNotExist <;>
        simp [domainFailures, domainCalls, logLines, failureOf, guardedLogs, hk]
    | none => simp [domainFailures, domainCalls, logLines, failureOf]
  · rw [DeleteDeviceServiceByName_trace]
    cases (c.DeleteDeviceServiceByName (r.Var c.Name) s).1 with
    | some err =>
      by_cases hk : err.kind = ErrKind.EntityDoesNotExist <;>
        simp [domainFailures, domainCalls, logLines, failureOf, guardedLogs, hk]
    | none => simp [domainFailures, domainCalls, logLines, failureOf]
  · rw [GetAllDeviceServices_trace]
    cases (c.GetDeviceServices (c.ParseQueryStringToInt r c.Offset c.DefaultOffset).1
        (c.ParseQueryStringToInt r c.Limit c.DefaultLimit).1
        (c.ParseQueryStringToStrings r c.Labels c.CommaSeparator) s).1 with
    | error err =>
      by_cases hk : err.kind = ErrKind.EntityDoesNotExist <;>
        simp [domainFailures, domainCalls, domainCalls_append, domainCalls_parseFailureLogs,
          logLines, logLines_append, logLines_parseFailureLogs, failureOf, guardedLogs, hk]
    | ok dss =>
      simp [domainFailures, domainCalls, domainCalls_append, domainCalls_parseFailureLogs,
        logLines, logLines_append, logLines_parseFailureLogs, failureOf]

/-- C8 as the code has it, at the sample deployment. -/
theorem domain_failure_log_severity_witness :
    (sample.ReadAddDeviceServiceRequest sampleAddRequest.Body = .ok sampleAddRequests
      ∧ sample.ReadUpdateDeviceServiceRequest samplePatchRequest.Body
          = .ok sampleUpdateRequests)
    ∧ (
      (∃ (s1 : List String) (tr : List Effect),
            AddDeviceService sample sampleAddRequest ["svc-a"] = some (s1, tr)
          ∧ logLines tr
              = (domainFailures tr).flatMap (fun err =>
                  [Effect.logError err.Error sampleAddRequest.CorrelationId,
                   Effect.logDebug err.DebugMessages sampleAddRequest.CorrelationId]))
      ∧ logLines (PatchDeviceService sample samplePatchRequest ["svc-a"]).2
          = (domainFailures
                (PatchDeviceService sample samplePatchRequest ["svc-a"]).2).flatMap (fun err =>
              [Effect.logError err.Error samplePatchRequest.CorrelationId,
               Effect.logDebug err.DebugMessages samplePatchRequest.CorrelationId])
      ∧ ((domainCalls (GetDeviceServiceByName
              sample sampleUnknownNameRequest ["svc-a"]).2).length = 1
          ∧ logLines (GetDeviceServiceByName sample sampleUnknownNameRequest ["svc-a"]).2
            = (domainFailures
                  (GetDeviceServiceByName sample sampleUnknownNameRequest ["svc-a"]).2).flatMap (fun err =>
                if err.kind = ErrKind.EntityDoesNotExist
                then [Effect.logDebug err.DebugMessages sampleUnknownNameRequest.CorrelationId]
                else [Effect.logError err.Error sampleUnknownNameRequest.CorrelationId,
                      Effect.logDebug err.DebugMessages sampleUnknownNameRequest.CorrelationId]))
      ∧ ((domainCalls (DeleteDeviceServiceById
              sample sampleUnknownNameRequest ["svc-a"]).2).length = 1
          ∧ logLines (DeleteDeviceServiceById sample sampleUnknownNameRequest ["svc-a"]).2
            = (domainFailures
                  (DeleteDeviceServiceById sample sampleUnknownNameRequest ["svc-a"]).2).flatMap (fun err =>
                if err.kind = ErrKind.EntityDoesNotExist
                then [Effect.logDebug err.DebugMessages sampleUnknownNameRequest.CorrelationId]
                else [Effect.logError err.Error sampleUnknownNameRequest.CorrelationId,
                      Effect.logDebug err.DebugMessages sampleUnknownNameRequest.CorrelationId]))
      ∧ ((domainCalls (DeleteDeviceServiceByName
              sample sampleUnknownNameRequest ["svc-a"]).2).length = 1
          ∧ logLines (DeleteDeviceServiceByName sample sampleUnknownNameRequest ["svc-a"]).2
            = (domainFailures
                  (DeleteDeviceServiceByName sample sampleUnknownNameRequest ["svc-a"]).2).flatMap (fun err =>
                if err.kind = ErrKind.EntityDoesNotExist
                then [Effect.logDebug err.DebugMessages sampleUnknownNameRequest.CorrelationId]
                else [Effect.logError err.Error sampleUnknownNameRequest.CorrelationId,
                      Effect.logDebug err.DebugMessages sampleUnknownNameRequest.CorrelationId]))
      ∧ ((domainCalls (GetAllDeviceServices sample sampleUnknownNameRequest ["svc-a"]).2).length = 1
          ∧ logLines (GetAllDeviceServices sample sampleUnknownNameRequest ["svc-a"]).2
            = parseFailureLogs sampleUnknownNameRequest.CorrelationId
                  (sample.ParseQueryStringToInt
                      sampleUnknownNameRequest sample.Offset sample.DefaultOffset).2
                ++ parseFailureLogs sampleUnknownNameRequest.CorrelationId
                  (sample.ParseQueryStringToInt
                      sampleUnknownNameRequest sample.Limit sample.DefaultLimit).2
                ++ (domainFailures
                      (GetAllDeviceServices sample sampleUnknownNameRequest ["svc-a"]).2).flatMap (fun err =>
                    if err.kind = ErrKind.EntityDoesNotExist
                    then [Effect.logDebug err.DebugMessages sampleUnknownNameRequest.CorrelationId]
                    else [Effect.logError err.Error sampleUnknownNameRequest.CorrelationId,
                          Effect.logDebug err.DebugMessages
                              sampleUnknownNameRequest.CorrelationId]))) :=
  ⟨⟨rfl, rfl⟩,
    domain_failure_log_severity sample sampleAddRequest samplePatchRequest
      sampleUnknownNameRequest ["svc-a"] sampleAddRequests sampleUpdateRequests rfl rfl⟩

/-- C8 as stated fails on the batch endpoints. Patching the sample service `svc-x`,
which nobody registered, fails in the domain layer with an error of kind
`EntityDoesNotExist`, and the handler logs that error at error severity; so does the
add handler for every item when the domain create fails with an error of that kind. -/
theorem batch_not_found_logged_at_error_severity :
    (∃ err : EdgeX,
      domainFailures (PatchDeviceService sample samplePatchRequest ["svc-a"]).2 = [err]
        ∧ err.kind = ErrKind.EntityDoesNotExist
        ∧ errorLogs (PatchDeviceService sample samplePatchRequest ["svc-a"]).2
            = [Effect.logError err.Error "corr-2"])
    ∧ (∃ (err : EdgeX) (tr : List Effect),
      AddDeviceService sampleNoParent sampleAddRequest [] = some ([], tr)
        ∧ domainFailures tr = [err, err, err]
        ∧ err.kind = ErrKind.EntityDoesNotExist
        ∧ errorLogs tr
            = [Effect.logError err.Error "corr-1", Effect.logError err.Error "corr-1",
               Effect.logError err.Error "corr-1"]) :=
  ⟨⟨sampleNotFound, rfl, rfl, rfl⟩, ⟨sampleNotFound, _, rfl, rfl, rfl, rfl⟩⟩

/-! ## Query parameter failures on the list endpoint -/

/-- C5 on the code: a list request with `offset=abc`. The offset fails to parse, the
failure is logged, and the handler goes on: the domain list operation is invoked, with
offset 0 and the default limit, and the response written is the 200 envelope with the
records, not the envelope of the parse failure. -/
theorem list_invoked_after_offset_parse_failure :
    (sample.ParseQueryStringToInt sampleBadOffsetRequest sample.Offset
        sample.DefaultOffset).2 = some sampleBadQuery
    ∧ sampleBadQuery.Code = 400
    ∧ (GetAllDeviceServices sample sampleBadOffsetRequest ["svc-b", "svc-a"]).2
        = [Effect.logError "query: invalid query parameter" "corr-5",
           Effect.logDebug "utils: parse failed" "corr-5",
           Effect.domain (.GetDeviceServices 0 20 []
             (.ok [sampleRecord "svc-b", sampleRecord "svc-a"])),
           Effect.writeHeader 200,
           Effect.encode (.single
             { requestId := "", message := "", statusCode := 200,
               payload := Payload.services [sampleRecord "svc-b", sampleRecord "svc-a"] })] :=
  ⟨rfl, rfl, rfl⟩

/-- C6 on the code: a list request with `offset=abc` and `limit=xyz`. Both parse
attempts run and fail with status 400, both failures are logged, and the status and
envelope finally written are those of the domain list call (200), so neither parse
failure reaches the response. -/
theorem list_response_overwrites_parse_failures :
    (sample.ParseQueryStringToInt sampleBadOffsetAndLimitRequest sample.Offset
        sample.DefaultOffset).2 = some sampleBadQuery
    ∧ (sample.ParseQueryStringToInt sampleBadOffsetAndLimitRequest sample.Limit
        sample.DefaultLimit).2 = some sampleBadQuery
    ∧ sampleBadQuery.Code = 400
    ∧ logLines (GetAllDeviceServices sample sampleBadOffsetAndLimitRequest ["svc-a"]).2
        = [Effect.logError "query: invalid query parameter" "corr-6",
           Effect.logDebug "utils: parse failed" "corr-6",
           Effect.logError "query: invalid query parameter" "corr-6",
           Effect.logDebug "utils: parse failed" "corr-6"]
    ∧ transport (GetAllDeviceServices sample sampleBadOffsetAndLimitRequest ["svc-a"]).2
        = [Effect.writeHeader 200,
           Effect.encode (.single
             { requestId := "", message := "", statusCode := 200,
               payload := Payload.services [] })] :=
  ⟨rfl, rfl, rfl, rfl, rfl⟩

end Metadata
